import Mathlib

/-
Verification of the metrics-emission/push loop of prom_wrapper_pg
(georgelza/prom_wrapper_pg, src/main.go).

The program is a sequential batch loop: a simulated SQL sleep, then a
fixed number of iterations, each of which runs a simulated backup stage,
updates metric instruments, and calls the push client twice (once after
the metric updates, once at the end of the iteration body).

The shallow embedding below models:
  * the metric instruments constructed by NewMetrics (names, label
    dimensions, histogram bucket boundaries) as a structure of
    descriptors, with the registry holding exactly the five vector
    instruments passed to reg.MustRegister;
  * the run-time state of mRun as a record (simulated clock, gauge and
    histogram values, counters of work invocations, push attempts and
    diagnostic lines, and the list of snapshots handed to the push
    client);
  * the randomized sleeps and the push transport outcomes as an
    environment of input functions, so every theorem quantifies over all
    possible sleep durations and push successes/failures.

Time is a simulated clock in milliseconds: the only time-consuming
operations in the source are the sleeps, so the clock advances exactly by
the sleep durations and all other statements are instantaneous.
-/

namespace PromWrapper

/-- Kinds of Prometheus instruments used by the program. -/
inductive InstrKind where
  | gauge
  | gaugeVec
  | histogramVec
  | counterVec
  deriving DecidableEq, Repr

/-- A metric instrument descriptor: its name, label dimension and (for
histograms) the fixed bucket boundaries, as declared at construction. -/
structure Instr where
  name : String
  kind : InstrKind
  labels : List String
  buckets : List ℚ
  deriving DecidableEq, Repr

/-- The nine instruments held by the `metrics` struct, mirroring the
fields of `type metrics struct` in main.go. -/
structure MetricsDef where
  completionTime : Instr
  successTime : Instr
  duration : Instr
  records : Instr
  info : Instr
  sql_duration : Instr
  rec_duration : Instr
  api_duration : Instr
  req_processed : Instr
  deriving DecidableEq, Repr

/-- `NewMetrics` (main.go lines 50-113): constructs the nine instruments
with the names, help-irrelevant shapes, label dimensions and bucket
boundaries written in the source. -/
def NewMetrics : MetricsDef :=
  { completionTime :=
      { name := "fs_etl_complete_timestamp_seconds", kind := .gauge,
        labels := [], buckets := [] }
    successTime :=
      { name := "fs_etl_success_timestamp_seconds", kind := .gauge,
        labels := [], buckets := [] }
    duration :=
      { name := "fs_etl_duration_seconds", kind := .gauge,
        labels := [], buckets := [] }
    records :=
      { name := "fs_etl_records_processed", kind := .gauge,
        labels := [], buckets := [] }
    info :=
      { name := "txn_count", kind := .gaugeVec,
        labels := ["batch"], buckets := [] }
    sql_duration :=
      { name := "fs_sql_duration_seconds", kind := .histogramVec,
        labels := ["batch"],
        buckets := [0.1, 0.5, 1, 5, 10, 100] }
    api_duration :=
      { name := "fs_api_duration_seconds", kind := .histogramVec,
        labels := ["batch"],
        buckets := [0.00001, 0.000015, 0.00002, 0.000025, 0.00003] }
    rec_duration :=
      { name := "fs_etl_operations_seconds", kind := .histogramVec,
        labels := ["batch"],
        buckets := [0.001, 0.0015, 0.002, 0.0025, 0.01] }
    req_processed :=
      { name := "fs_etl_operations_total", kind := .counterVec,
        labels := ["batch"] , buckets := [] } }

/-- The collectors passed to `reg.MustRegister` (main.go line 110), in
the order of the call: info, sql_duration, api_duration, rec_duration,
req_processed.  The four plain gauges are not registered. -/
def registeredCollectors : List Instr :=
  [NewMetrics.info, NewMetrics.sql_duration, NewMetrics.api_duration,
   NewMetrics.rec_duration, NewMetrics.req_processed]

/-- The metric names gathered by the push client: `pusher` is built as
`push.New(...).Gatherer(reg)` (main.go line 47) with no extra
`.Collector` call (the one for successTime is commented out, line 166),
so every push serializes exactly the registered collectors. -/
def registeredNames : List String :=
  registeredCollectors.map Instr.name

/-- All nine instruments, for the invariant that instrument descriptors
(in particular histogram bucket boundaries) never change after
construction. -/
def allInstrs : List Instr :=
  [NewMetrics.completionTime, NewMetrics.successTime, NewMetrics.duration,
   NewMetrics.records, NewMetrics.info, NewMetrics.sql_duration,
   NewMetrics.api_duration, NewMetrics.rec_duration,
   NewMetrics.req_processed]

/-- Run-time values of the metric instruments.  Gauges hold a single
value (timestamps are simulated-clock readings, `Option Nat` so that
"never set" is distinguishable); histograms hold their list of
observations; the counter and the labeled gauge hold their single
"eft"-labeled value, the only label value the program ever uses. -/
structure MetricsState where
  completionTime : Option Nat
  successTime : Option Nat
  duration : Nat
  records : Nat
  info_eft : Nat
  sql_duration_eft : List Nat
  api_duration_eft : List Nat
  rec_duration_eft : List Nat
  req_processed_eft : Nat
  deriving DecidableEq, Repr

/-- Initial instrument values at process start: gauges unset/zero,
histograms empty, counter zero. -/
def initMetricsState : MetricsState :=
  { completionTime := none, successTime := none, duration := 0,
    records := 0, info_eft := 0, sql_duration_eft := [],
    api_duration_eft := [], rec_duration_eft := [],
    req_processed_eft := 0 }

/-- The whole observable state of a run of `mRun`: the simulated clock
(milliseconds), the instrument values, the instrument descriptors, and
event counters (work-stage invocations, push attempts, diagnostic lines
for failed pushes and for the backup-failed branch) plus the list of
metric-name snapshots handed to the push client, one per push attempt. -/
structure RunState where
  time : Nat
  m : MetricsState
  instrs : List Instr
  workCalls : Nat
  pushAttempts : Nat
  pushFailLogs : Nat
  backupFailLogs : Nat
  pushedSnapshots : List (List String)
  deriving DecidableEq, Repr

/-- State at process start. -/
def initState : RunState :=
  { time := 0, m := initMetricsState, instrs := allInstrs,
    workCalls := 0, pushAttempts := 0, pushFailLogs := 0,
    backupFailLogs := 0, pushedSnapshots := [] }

/-- The environment of a run: the randomized sleep durations (ms) drawn
in `mRun` and `performBackup`, and the outcome of each push attempt
(indexed by attempt number; `true` = the transport succeeded). -/
structure Env where
  sqlSleep : Nat
  apiSleep : Nat → Nat
  reqSleep : Nat → Nat
  pushOk : Nat → Bool

/-- `performBackup` (main.go lines 115-127): sleeps a bounded random
number of milliseconds, then returns the fixed count 42 and a nil error.
Given the current clock and the drawn sleep, returns the new clock, the
record count and the error value. -/
def performBackup (sleep_ms : Nat) (t : Nat) : Nat × Nat × Option String :=
  (t + sleep_ms, 42, none)

/-- One call to `pusher.Add()` plus its error check (main.go lines
173-175 and 187-189): one push attempt, serializing the registered
names; on transport failure one diagnostic line, never a retry. -/
def pusherAdd (ok : Bool) (s : RunState) : RunState :=
  { s with pushAttempts := s.pushAttempts + 1,
           pushedSnapshots := s.pushedSnapshots ++ [registeredNames],
           pushFailLogs := if ok then s.pushFailLogs else s.pushFailLogs + 1 }

/-- `m.records.Set(float64(n))` (main.go line 149). -/
def setRecords (n : Nat) (s : RunState) : RunState :=
  { s with m := { s.m with records := n } }

/-- `m.api_duration.WithLabelValues("eft").Observe(...)` (line 151). -/
def observeApi (start : Nat) (s : RunState) : RunState :=
  { s with m := { s.m with api_duration_eft := s.m.api_duration_eft ++ [s.time - start] } }

/-- `m.duration.Set(time.Since(start).Seconds())` (line 154). -/
def setDurationGauge (start : Nat) (s : RunState) : RunState :=
  { s with m := { s.m with duration := s.time - start } }

/-- `m.completionTime.SetToCurrentTime()` (line 155). -/
def setCompletionTime (s : RunState) : RunState :=
  { s with m := { s.m with completionTime := some s.time } }

/-- `m.successTime.SetToCurrentTime()` (line 167), the success branch. -/
def setSuccessTime (s : RunState) : RunState :=
  { s with m := { s.m with successTime := some s.time } }

/-- `fmt.Println("DB backup failed:", err)` (line 158), the failure
branch of the backup result check. -/
def logBackupFailure (s : RunState) : RunState :=
  { s with backupFailLogs := s.backupFailLogs + 1 }

/-- The `time.Sleep` of the "Req" phase (lines 177-180). -/
def stepSleep (d : Nat) (s : RunState) : RunState :=
  { s with time := s.time + d }

/-- `m.req_processed.WithLabelValues("eft").Inc()` (line 182). -/
def incProcessed (s : RunState) : RunState :=
  { s with m := { s.m with req_processed_eft := s.m.req_processed_eft + 1 } }

/-- `m.rec_duration.WithLabelValues("eft").Observe(...)` (line 184). -/
def observeRec (start : Nat) (s : RunState) : RunState :=
  { s with m := { s.m with rec_duration_eft := s.m.rec_duration_eft ++ [s.time - start] } }

/-- One iteration of the batch loop body (main.go lines 144-191),
statement for statement: record start time; call `performBackup`; set
the records gauge; observe the api histogram; set the duration gauge;
set the completion-time gauge; on error print a diagnostic, on success
set the success-time gauge; first `pusher.Add()`; the "Req" sleep;
increment the processed counter; observe the rec_duration histogram;
second `pusher.Add()` (the source's "force a final metric push",
textually inside the loop body). -/
def loopBody (env : Env) (count : Nat) (s : RunState) : RunState :=
  let start := s.time
  let r := performBackup (env.apiSleep count) s.time
  let s1 : RunState := { s with time := r.1, workCalls := s.workCalls + 1 }
  let n := r.2.1
  let err := r.2.2
  let s2 := setRecords n s1
  let s3 := observeApi start s2
  let s4 := setDurationGauge start s3
  let s5 := setCompletionTime s4
  let s6 := match err with
    | some _ => logBackupFailure s5
    | none => setSuccessTime s5
  let s7 := pusherAdd (env.pushOk s6.pushAttempts) s6
  let s8 := stepSleep (env.reqSleep count) s7
  let s9 := incProcessed s8
  let s10 := observeRec start s9
  pusherAdd (env.pushOk s10.pushAttempts) s10

/-- The part of `mRun` before the loop (main.go lines 134-142): the
simulated SQL sleep, the sql_duration observation, and setting the
txn_count gauge to 345234523. -/
def mRunPre (env : Env) : RunState :=
  let s := initState
  let sqlstart := s.time
  let s' := { s with time := s.time + env.sqlSleep }
  let s'' := { s' with m := { s'.m with sql_duration_eft := s'.m.sql_duration_eft ++ [s'.time - sqlstart] } }
  { s'' with m := { s''.m with info_eft := 345234523 } }

/-- `mRun` generalized over the iteration count: the pre-loop phase
followed by `for count := 0; count < todo_count; count++` over the loop
body. -/
def mRunN (env : Env) (todo : Nat) : RunState :=
  (List.range todo).foldl (fun s c => loopBody env c s) (mRunPre env)

/-- `var todo_count = 40` (main.go line 131). -/
def todo_count : Nat := 40

/-- `mRun` (main.go lines 129-192), as called by `main`. -/
def mRun (env : Env) : RunState :=
  mRunN env todo_count

/-- A concrete witness environment: zero sleeps, every push succeeds. -/
def env0 : Env :=
  { sqlSleep := 0, apiSleep := fun _ => 0, reqSleep := fun _ => 0,
    pushOk := fun _ => true }

/-- A concrete environment in which every push attempt fails. -/
def envAllFail : Env :=
  { sqlSleep := 0, apiSleep := fun _ => 0, reqSleep := fun _ => 0,
    pushOk := fun _ => false }

/-! ### Effect of one loop iteration -/

theorem loopBody_workCalls (env : Env) (c : Nat) (s : RunState) :
    (loopBody env c s).workCalls = s.workCalls + 1 := rfl

theorem loopBody_pushAttempts (env : Env) (c : Nat) (s : RunState) :
    (loopBody env c s).pushAttempts = s.pushAttempts + 2 := rfl

theorem loopBody_req_processed (env : Env) (c : Nat) (s : RunState) :
    (loopBody env c s).m.req_processed_eft = s.m.req_processed_eft + 1 := rfl

theorem loopBody_instrs (env : Env) (c : Nat) (s : RunState) :
    (loopBody env c s).instrs = s.instrs := rfl

theorem loopBody_backupFailLogs (env : Env) (c : Nat) (s : RunState) :
    (loopBody env c s).backupFailLogs = s.backupFailLogs := rfl

theorem loopBody_time (env : Env) (c : Nat) (s : RunState) :
    (loopBody env c s).time = s.time + env.apiSleep c + env.reqSleep c := rfl

theorem loopBody_successTime (env : Env) (c : Nat) (s : RunState) :
    (loopBody env c s).m.successTime = some (s.time + env.apiSleep c) := rfl

theorem loopBody_completionTime (env : Env) (c : Nat) (s : RunState) :
    (loopBody env c s).m.completionTime = some (s.time + env.apiSleep c) := rfl

theorem loopBody_snapshots (env : Env) (c : Nat) (s : RunState) :
    (loopBody env c s).pushedSnapshots
      = s.pushedSnapshots ++ [registeredNames, registeredNames] := by
  show s.pushedSnapshots ++ [registeredNames] ++ [registeredNames] = _
  simp

theorem loopBody_pushFailLogs (env : Env) (c : Nat) (s : RunState) :
    (loopBody env c s).pushFailLogs
      = s.pushFailLogs + (if env.pushOk s.pushAttempts then 0 else 1)
          + (if env.pushOk (s.pushAttempts + 1) then 0 else 1) := by
  cases h1 : env.pushOk s.pushAttempts <;>
    cases h2 : env.pushOk (s.pushAttempts + 1) <;>
      simp [loopBody, pusherAdd, setRecords, observeApi, setDurationGauge,
        setCompletionTime, setSuccessTime, stepSleep, incProcessed,
        observeRec, performBackup, h1, h2]

/-! ### Run-level facts, by induction on the iteration count -/

theorem mRunN_zero (env : Env) : mRunN env 0 = mRunPre env := rfl

theorem mRunN_succ (env : Env) (n : Nat) :
    mRunN env (n + 1) = loopBody env n (mRunN env n) := by
  unfold mRunN
  rw [List.range_succ, List.foldl_append]
  rfl

theorem mRunPre_workCalls (env : Env) : (mRunPre env).workCalls = 0 := rfl

theorem mRunPre_pushAttempts (env : Env) : (mRunPre env).pushAttempts = 0 := rfl

theorem mRunPre_req_processed (env : Env) :
    (mRunPre env).m.req_processed_eft = 0 := rfl

theorem mRunPre_instrs (env : Env) : (mRunPre env).instrs = allInstrs := rfl

theorem mRunN_workCalls (env : Env) (n : Nat) :
    (mRunN env n).workCalls = n := by
  induction n with
  | zero => rfl
  | succ k ih => rw [mRunN_succ, loopBody_workCalls, ih]

theorem mRunN_pushAttempts (env : Env) (n : Nat) :
    (mRunN env n).pushAttempts = 2 * n := by
  induction n with
  | zero => rfl
  | succ k ih => rw [mRunN_succ, loopBody_pushAttempts, ih]; ring

theorem mRunN_req_processed (env : Env) (n : Nat) :
    (mRunN env n).m.req_processed_eft = n := by
  induction n with
  | zero => rfl
  | succ k ih => rw [mRunN_succ, loopBody_req_processed, ih]

theorem mRunN_instrs (env : Env) (n : Nat) :
    (mRunN env n).instrs = allInstrs := by
  induction n with
  | zero => rfl
  | succ k ih => rw [mRunN_succ, loopBody_instrs, ih]

theorem mRunN_backupFailLogs (env : Env) (n : Nat) :
    (mRunN env n).backupFailLogs = 0 := by
  induction n with
  | zero => rfl
  | succ k ih => rw [mRunN_succ, loopBody_backupFailLogs, ih]

theorem mRunN_snapshots (env : Env) (n : Nat) :
    ∀ snap ∈ (mRunN env n).pushedSnapshots, snap = registeredNames := by
  induction n with
  | zero =>
      intro snap h
      simp [mRunN_zero, mRunPre, initState] at h
  | succ k ih =>
      intro snap h
      rw [mRunN_succ, loopBody_snapshots] at h
      rcases List.mem_append.mp h with h' | h'
      · exact ih snap h'
      · simp at h'
        exact h'

theorem mRunN_successTime_eq_completionTime (env : Env) (n : Nat)
    (h : 1 ≤ n) :
    (mRunN env n).m.successTime = (mRunN env n).m.completionTime := by
  obtain ⟨k, rfl⟩ := Nat.exists_eq_add_of_le h
  rw [Nat.add_comm, mRunN_succ, loopBody_successTime, loopBody_completionTime]

theorem mRunN_successTime_set (env : Env) (n : Nat) (h : 1 ≤ n) :
    (mRunN env n).m.successTime ≠ none := by
  obtain ⟨k, rfl⟩ := Nat.exists_eq_add_of_le h
  rw [Nat.add_comm, mRunN_succ, loopBody_successTime]
  simp

theorem mRunN_pushFailLogs_allFail (env : Env)
    (hfail : ∀ k, env.pushOk k = false) (n : Nat) :
    (mRunN env n).pushFailLogs = 2 * n + (mRunPre env).pushFailLogs := by
  induction n with
  | zero => simp [mRunN_zero]
  | succ k ih =>
      rw [mRunN_succ, loopBody_pushFailLogs, ih, hfail, hfail]
      simp; ring

theorem mRunPre_pushFailLogs (env : Env) : (mRunPre env).pushFailLogs = 0 := rfl

theorem mRunN_snapshots_replicate (env : Env) (n : Nat) :
    (mRunN env n).pushedSnapshots = List.replicate (2 * n) registeredNames := by
  induction n with
  | zero => rfl
  | succ k ih =>
      rw [mRunN_succ, loopBody_snapshots, ih, Nat.mul_succ,
        List.replicate_add]
      rfl

/-! ### Claim theorems -/

/-- C1, counterexample: the claim asserts N+1 push attempts for a run of
N iterations.  At the concrete input N = 2 (all sleeps zero, every push
succeeding) the run performs 2 work invocations but 4 push attempts,
not 2 + 1 = 3: the source's "final" push call sits inside the loop body,
so there are two push attempts per iteration and none after the loop. -/
theorem C1_counterexample :
    (mRunN env0 2).workCalls = 2 ∧ (mRunN env0 2).pushAttempts = 4 ∧
      (mRunN env0 2).pushAttempts ≠ 2 + 1 := by
  refine ⟨by decide, by decide, by decide⟩

/-- C1, amended: for every iteration count N ≥ 0 and every environment
(sleep draws and push outcomes), a complete run of the batch loop
performs exactly N invocations of the simulated work stage and exactly
2N push attempts — two per iteration, one after the metric updates and
one at the end of the iteration body — and no push after the loop,
regardless of any push failures. -/
theorem C1_work_and_push_counts (env : Env) (n : Nat) :
    (mRunN env n).workCalls = n ∧ (mRunN env n).pushAttempts = 2 * n :=
  ⟨mRunN_workCalls env n, mRunN_pushAttempts env n⟩

/-- C2, counterexample: the claim asserts the unregistered gauge
fs_etl_success_timestamp_seconds is nonetheless pushed ad hoc.  In a
concrete run of one iteration the stage succeeds and the gauge is
updated, yet both pushed snapshots consist of the registered names only,
and that name is not among them: the pusher.Collector call for it is
commented out, so the gauge is never transmitted. -/
theorem C2_counterexample :
    Option.isSome (mRunN env0 1).m.successTime = true ∧
      (mRunN env0 1).pushedSnapshots = [registeredNames, registeredNames] ∧
      registeredNames.contains "fs_etl_success_timestamp_seconds" = false := by
  refine ⟨by decide, by decide, by decide⟩

/-- C2, amended: the gauge fs_etl_success_timestamp_seconds is not
registered with the static registry, and it is not pushed either: it is
never added to the push client (the Collector call is commented out), so
no push attempt of any run ever transmits it — every pushed snapshot
consists of the registered names only, which exclude it. -/
theorem C2_success_gauge_never_pushed (env : Env) (n : Nat) :
    registeredNames.contains NewMetrics.successTime.name = false ∧
      (mRunN env n).pushedSnapshots = List.replicate (2 * n) registeredNames :=
  ⟨by decide, mRunN_snapshots_replicate env n⟩

/-- C3: the success-time gauge is updated exactly when the work stage
reports success; the stage always returns a nil error, so every
iteration sets the gauge to the same clock reading as the
completion-time gauge, and after any run of at least one iteration the
two gauges are equal (and the success gauge is set). -/
theorem C3_success_equals_completion (env : Env) (n : Nat) (h : 1 ≤ n) :
    (∀ d t, (performBackup d t).2.2 = none) ∧
      (∀ c s, (loopBody env c s).m.successTime = some (s.time + env.apiSleep c)) ∧
      (mRunN env n).m.successTime = (mRunN env n).m.completionTime ∧
      Option.isSome (mRunN env n).m.successTime = true := by
  refine ⟨fun d t => rfl, fun c s => loopBody_successTime env c s,
    mRunN_successTime_eq_completionTime env n h, ?_⟩
  obtain ⟨k, rfl⟩ := Nat.exists_eq_add_of_le h
  rw [Nat.add_comm, mRunN_succ, loopBody_successTime]
  rfl

/-- C3, witness at the concrete input N = 1 with the zero-sleep,
all-pushes-succeed environment. -/
theorem C3_witness :
    (mRunN env0 1).m.successTime = (mRunN env0 1).m.completionTime :=
  (C3_success_equals_completion env0 1 (by decide)).2.2.1

/-- C4: the processed counter fs_etl_operations_total (label batch="eft")
starts at zero at process start, is incremented exactly once per loop
iteration, unconditionally, and after a completed run of N iterations
equals exactly N — for every environment. -/
theorem C4_processed_counter (env : Env) (n : Nat) :
    initState.m.req_processed_eft = 0 ∧
      (∀ c s, (loopBody env c s).m.req_processed_eft = s.m.req_processed_eft + 1) ∧
      (mRunN env n).m.req_processed_eft = n :=
  ⟨rfl, fun c s => loopBody_req_processed env c s, mRunN_req_processed env n⟩

/-- C5, counterexample: the claim asserts N+1 diagnostic lines when
every push fails.  At the concrete input N = 2 with an environment in
which every push attempt fails, all 2 iterations complete but 4
diagnostic lines are printed (one per failed attempt, two attempts per
iteration), not 2 + 1 = 3. -/
theorem C5_counterexample :
    (mRunN envAllFail 2).workCalls = 2 ∧
      (mRunN envAllFail 2).pushFailLogs = 4 ∧
      (mRunN envAllFail 2).pushFailLogs ≠ 2 + 1 := by
  refine ⟨by decide, by decide, by decide⟩

/-- C5, amended: a push-transport error is never fatal and never
retried: when every push attempt fails, a run of N iterations still
performs all N work invocations, makes exactly 2N push attempts (no
retries), and prints exactly one diagnostic line per failed attempt —
2N lines in total — and the run completes normally. -/
theorem C5_push_failures_not_fatal (env : Env)
    (hfail : ∀ k, env.pushOk k = false) (n : Nat) :
    (mRunN env n).workCalls = n ∧ (mRunN env n).pushAttempts = 2 * n ∧
      (mRunN env n).pushFailLogs = 2 * n := by
  refine ⟨mRunN_workCalls env n, mRunN_pushAttempts env n, ?_⟩
  rw [mRunN_pushFailLogs_allFail env hfail n, mRunPre_pushFailLogs]
  rfl

/-- C5, witness at the concrete input N = 3 with the environment in
which every push fails. -/
theorem C5_witness :
    (mRunN envAllFail 3).workCalls = 3 ∧
      (mRunN envAllFail 3).pushAttempts = 2 * 3 ∧
      (mRunN envAllFail 3).pushFailLogs = 2 * 3 :=
  C5_push_failures_not_fatal envAllFail (fun _ => rfl) 3

/-- C6: the simulated work stage performBackup returns the fixed count
42 and a nil error on every execution (its only effect is advancing the
clock by its sleep), so the failure branch printing "DB backup failed"
is unreachable: no run of any length ever prints it. -/
theorem C6_backup_never_fails (d t : Nat) (env : Env) (n : Nat) :
    performBackup d t = (t + d, 42, none) ∧
      (mRunN env n).backupFailLogs = 0 :=
  ⟨rfl, mRunN_backupFailLogs env n⟩

/-- C7: the instruments constructed by NewMetrics have exactly the
names, label dimension and bucket boundaries listed in the spec: four
plain gauges, one gauge vector labeled by batch, three histogram vectors
labeled by batch with the listed buckets, and one counter vector labeled
by batch. -/
theorem C7_instrument_shapes :
    NewMetrics.completionTime
        = ⟨"fs_etl_complete_timestamp_seconds", .gauge, [], []⟩ ∧
      NewMetrics.successTime
        = ⟨"fs_etl_success_timestamp_seconds", .gauge, [], []⟩ ∧
      NewMetrics.duration
        = ⟨"fs_etl_duration_seconds", .gauge, [], []⟩ ∧
      NewMetrics.records
        = ⟨"fs_etl_records_processed", .gauge, [], []⟩ ∧
      NewMetrics.info
        = ⟨"txn_count", .gaugeVec, ["batch"], []⟩ ∧
      NewMetrics.sql_duration
        = ⟨"fs_sql_duration_seconds", .histogramVec, ["batch"],
            [0.1, 0.5, 1, 5, 10, 100]⟩ ∧
      NewMetrics.api_duration
        = ⟨"fs_api_duration_seconds", .histogramVec, ["batch"],
            [0.00001, 0.000015, 0.00002, 0.000025, 0.00003]⟩ ∧
      NewMetrics.rec_duration
        = ⟨"fs_etl_operations_seconds", .histogramVec, ["batch"],
            [0.001, 0.0015, 0.002, 0.0025, 0.01]⟩ ∧
      NewMetrics.req_processed
        = ⟨"fs_etl_operations_total", .counterVec, ["batch"], []⟩ := by
  refine ⟨rfl, rfl, rfl, rfl, rfl, rfl, rfl, rfl, rfl⟩

/-- C8: within a process lifetime the counter fs_etl_operations_total
never decreases — along any run its value after N iterations is at most
its value after M ≥ N iterations, each individual state operation of the
loop body leaves it unchanged except the single increment, and every
operation leaves the instrument descriptors (hence every histogram's
bucket boundaries, fixed at construction) unchanged. -/
theorem C8_counter_monotone_buckets_fixed (env : Env) (c : Nat)
    (s : RunState) (b : Bool) (v d st nn mm : Nat) (h : nn ≤ mm) :
    ((mRunN env nn).m.req_processed_eft ≤ (mRunN env mm).m.req_processed_eft) ∧
      ((mRunN env mm).instrs = allInstrs) ∧
      ((pusherAdd b s).m.req_processed_eft = s.m.req_processed_eft) ∧
      ((setRecords v s).m.req_processed_eft = s.m.req_processed_eft) ∧
      ((observeApi st s).m.req_processed_eft = s.m.req_processed_eft) ∧
      ((setDurationGauge st s).m.req_processed_eft = s.m.req_processed_eft) ∧
      ((setCompletionTime s).m.req_processed_eft = s.m.req_processed_eft) ∧
      ((setSuccessTime s).m.req_processed_eft = s.m.req_processed_eft) ∧
      ((logBackupFailure s).m.req_processed_eft = s.m.req_processed_eft) ∧
      ((stepSleep d s).m.req_processed_eft = s.m.req_processed_eft) ∧
      ((observeRec st s).m.req_processed_eft = s.m.req_processed_eft) ∧
      ((incProcessed s).m.req_processed_eft = s.m.req_processed_eft + 1) ∧
      ((loopBody env c s).m.req_processed_eft = s.m.req_processed_eft + 1) ∧
      ((pusherAdd b s).instrs = s.instrs) ∧
      ((setRecords v s).instrs = s.instrs) ∧
      ((observeApi st s).instrs = s.instrs) ∧
      ((setDurationGauge st s).instrs = s.instrs) ∧
      ((setCompletionTime s).instrs = s.instrs) ∧
      ((setSuccessTime s).instrs = s.instrs) ∧
      ((logBackupFailure s).instrs = s.instrs) ∧
      ((stepSleep d s).instrs = s.instrs) ∧
      ((observeRec st s).instrs = s.instrs) ∧
      ((incProcessed s).instrs = s.instrs) ∧
      ((loopBody env c s).instrs = s.instrs) := by
  refine ⟨?_, mRunN_instrs env mm, rfl, rfl, rfl, rfl, rfl, rfl, rfl, rfl,
    rfl, rfl, rfl, rfl, rfl, rfl, rfl, rfl, rfl, rfl, rfl, rfl, rfl, rfl⟩
  rw [mRunN_req_processed, mRunN_req_processed]
  exact h

/-- C8, witness at the concrete inputs N = 1 ≤ M = 2 with the zero-sleep
environment and the initial state. -/
theorem C8_witness :
    (mRunN env0 1).m.req_processed_eft ≤ (mRunN env0 2).m.req_processed_eft :=
  (C8_counter_monotone_buckets_fixed env0 0 initState true 0 0 0 1 2
    (by decide)).1

/-- C9: the batch loop's iteration count is the fixed constant 40 (not
derived from any input): for every environment, mRun invokes the work
stage exactly 40 times and leaves the processed counter at exactly 40. -/
theorem C9_forty_iterations (env : Env) :
    todo_count = 40 ∧ mRun env = mRunN env 40 ∧
      (mRun env).workCalls = 40 ∧ (mRun env).m.req_processed_eft = 40 :=
  ⟨rfl, rfl, mRunN_workCalls env 40, mRunN_req_processed env 40⟩

/-- C10: the registry gathered by the push client holds exactly the five
labeled vector metrics, in registration order; none of the four plain
gauges is among them; and every push attempt of every run serializes
exactly that list of names — the pushed snapshots of a run of N
iterations are 2N copies of the registered-name list. -/
theorem C10_only_vector_metrics_pushed (env : Env) (n : Nat) :
    registeredNames
        = ["txn_count", "fs_sql_duration_seconds", "fs_api_duration_seconds",
           "fs_etl_operations_seconds", "fs_etl_operations_total"] ∧
      registeredNames.contains NewMetrics.completionTime.name = false ∧
      registeredNames.contains NewMetrics.successTime.name = false ∧
      registeredNames.contains NewMetrics.duration.name = false ∧
      registeredNames.contains NewMetrics.records.name = false ∧
      (mRunN env n).pushedSnapshots = List.replicate (2 * n) registeredNames := by
  refine ⟨by decide, by decide, by decide, by decide, by decide,
    mRunN_snapshots_replicate env n⟩

end PromWrapper
